import Mathlib

/-!
Verification of the deterministic game-balance engine of the founder-burnout
game: the delta engine, meter applier, ending evaluator, heuristic scorer and
narrative state machine, embedded shallowly from the JavaScript sources
(`server/gameLogic.js`, `server/geminiService.js` and the client-side offline
engine in `public/game.js`).

Modelling conventions:
* JavaScript numbers are embedded as exact rationals `ℚ`; where a value may be
  the IEEE `NaN` (arising from `undefined + number` in object arithmetic) we
  use `JNum := Option ℚ` with `none` standing for NaN-or-undefined, which the
  engine's comparisons treat identically (every `<`/`>` on NaN is false).
* JavaScript objects used as number maps (`deltas`, `meters`) are embedded as
  association lists `Obj := List (String × JNum)`; property read, property
  assignment and `for (let key in o)` follow JS semantics (first-class
  insertion order, assignment overwrites in place or appends).
* Free text reaches the engine only through three regex-derived statistics
  (length, buzzword-match count, presence of a numeral); the regex layer is
  abstracted by passing those statistics as arguments.
* Opaque flavour strings (ending prose, scene text) are elided; endings are
  identified by their `title` field, which is what every claim inspects.
-/

namespace FounderGame

/-- A JavaScript numeric value: `some q` is an ordinary (rational) number,
`none` is NaN (or `undefined` read back from a map, which behaves the same
under the arithmetic and comparisons the engine performs). -/
abbrev JNum := Option ℚ

/-- A JavaScript object holding numeric properties, in insertion order. -/
abbrev Obj := List (String × JNum)

/-- JS property read `o[k]`: `none` when the key is absent (`undefined`). -/
def Obj.get : Obj → String → Option JNum
  | [], _ => none
  | (k', v) :: rest, k => if k' = k then some v else Obj.get rest k

/-- JS property assignment `o[k] = v`: overwrite in place, else append. -/
def Obj.set : Obj → String → JNum → Obj
  | [], k, v => [(k, v)]
  | (k', v') :: rest, k, v =>
      if k' = k then (k, v) :: rest else (k', v') :: Obj.set rest k v

/-- JS addition of two possibly-absent, possibly-NaN values:
`undefined + x` and `NaN + x` are NaN. -/
def jadd : Option JNum → Option JNum → JNum
  | some (some a), some (some b) => some (a + b)
  | _, _ => none

/-- `clampValue(num, min, max) = Math.max(min, Math.min(max, num))`
(from `game.js`); also the shape of every inline clamp in the sources. -/
def clampValue (num lo hi : ℚ) : ℚ := max lo (min hi num)

/-- `Math.max(0, Math.min(100, v))` on a possibly-NaN value: NaN propagates
(`Math.min`/`Math.max` return NaN when any argument is NaN). -/
def jclampMeter : JNum → JNum
  | some q => some (clampValue q 0 100)
  | none => none

/-- The five-channel meter record `{growth, ethics, burnout, pr, funding}`. -/
structure Meters where
  growth : ℚ
  ethics : ℚ
  burnout : ℚ
  pr : ℚ
  funding : ℚ
deriving DecidableEq

/-- The meter object as the JS engine stores it (insertion order of the
initial game state literal: growth, ethics, burnout, pr, funding). -/
def Meters.toObj (m : Meters) : Obj :=
  [("growth", some m.growth), ("ethics", some m.ethics),
   ("burnout", some m.burnout), ("pr", some m.pr), ("funding", some m.funding)]

/-- The score triple `{sentiment, buzzword, feasibility}` consumed by the
delta engine (arbitrary JS numbers). -/
structure Scores where
  sentiment : ℚ
  buzzword : ℚ
  feasibility : ℚ
deriving DecidableEq

/-- `{industry, tech}` of the company profile. -/
structure Company where
  industry : String
  tech : String
deriving DecidableEq

/-- The parts of the game state the delta engine destructures:
`const { meters, traits, company } = gameState`. -/
structure GameState where
  meters : Meters
  traits : List String
  company : Company

/-- Result object of `computeDeltas`: the five meter deltas, plus the sixth
`feasibility` property that is assigned only when the "Critical Thinking"
trait is present (`none` = property absent). -/
structure DeltasOut where
  growth : ℚ
  ethics : ℚ
  burnout : ℚ
  pr : ℚ
  funding : ℚ
  feasibility : Option ℚ
deriving DecidableEq

/-- The deltas object as built by `computeDeltas`: the spread of the base
effects (growth, ethics, burnout, pr, funding) and, when assigned, the
`feasibility` property appended last. -/
def DeltasOut.toObj (d : DeltasOut) : Obj :=
  [("growth", some d.growth), ("ethics", some d.ethics),
   ("burnout", some d.burnout), ("pr", some d.pr), ("funding", some d.funding)]
  ++ (match d.feasibility with
      | some q => [("feasibility", some q)]
      | none => [])

/-- Per-industry multipliers `{growth, ethics_risk, pr, funding}`. -/
structure Mods where
  growth : ℚ
  ethics_risk : ℚ
  pr : ℚ
  funding : ℚ

/-- `getIndustryModifiers` from `gameLogic.js` (unknown industry falls back
to the Software row). -/
def getIndustryModifiers (industry : String) : Mods :=
  if industry = "Healthcare" then ⟨0.9, 0.6, 0.9, 1.0⟩
  else if industry = "Software" then ⟨1.0, 1.0, 1.0, 1.0⟩
  else if industry = "Finance" then ⟨1.0, 1.2, 1.0, 1.1⟩
  else if industry = "Electronics" then ⟨1.1, 1.0, 1.0, 1.0⟩
  else ⟨1.0, 1.0, 1.0, 1.0⟩

/-- `getTechModifiers` from `gameLogic.js` (unknown tech falls back to the
Software row). -/
def getTechModifiers (tech : String) : Mods :=
  if tech = "Software" then ⟨1.0, 1.0, 1.0, 1.0⟩
  else if tech = "AI/Automation" then ⟨1.0, 1.2, 1.15, 1.0⟩
  else if tech = "Physical Product" then ⟨0.9, 1.0, 1.1, 0.95⟩
  else ⟨1.0, 1.0, 1.0, 1.0⟩

/-- The fixed base-effect table of `computeDeltas`; an unknown action
defaults to the Build vector (`actionEffects[action] ?? actionEffects.Build`). -/
def actionEffects (action : String) : DeltasOut :=
  if action = "Build" then ⟨5, 2, 8, -2, -3, none⟩
  else if action = "PR" then ⟨2, -1, 3, 12, 3, none⟩
  else if action = "Growth Hack" then ⟨15, -8, 10, -5, 5, none⟩
  else if action = "Fundraise" then ⟨-2, 0, 5, 8, 12, none⟩
  else if action = "Refactor" then ⟨-5, 5, -8, -3, -5, none⟩
  else if action = "Hire" then ⟨3, 3, -12, 2, -15, none⟩
  else ⟨5, 2, 8, -2, -3, none⟩

/-- `computeDeltas(nlp, action, gameState)` from `server/gameLogic.js`:
base action effects, continuous score modifiers, sign-directed
industry/tech multipliers, then trait adjustments in source order. -/
def computeDeltas (nlp : Scores) (action : String) (gameState : GameState) :
    DeltasOut :=
  let sentiment := nlp.sentiment
  let buzzword := nlp.buzzword
  let feasibility := nlp.feasibility
  let traits := gameState.traits
  let company := gameState.company
  let base := actionEffects action
  let growth := base.growth + (sentiment - 50) * 0.15
  let pr := base.pr + (sentiment - 50) * 0.2
  let ethics := base.ethics - (buzzword - 50) * 0.1
  let funding := base.funding + (feasibility - 20) * 0.08
  let burnout := base.burnout + (100 - feasibility) * 0.05
  let industryMods := getIndustryModifiers company.industry
  let techMods := getTechModifiers company.tech
  let growth := if growth > 0 then growth * (industryMods.growth * techMods.growth) else growth
  let ethics := if ethics < 0 then ethics * (industryMods.ethics_risk * techMods.ethics_risk) else ethics
  let pr := if pr > 0 then pr * (industryMods.pr * techMods.pr) else pr
  let funding := if funding > 0 then funding * (industryMods.funding * techMods.funding) else funding
  let pr := if "Ambition" ∈ traits ∧ (action = "PR" ∨ action = "Fundraise") then pr + 5 else pr
  let burnout := if "Ambition" ∈ traits then burnout + 1 else burnout
  let ethics := if "Integrity" ∈ traits ∧ ethics < 0 then ethics * 0.5 else ethics
  let pr := if "Integrity" ∈ traits ∧ action = "Growth Hack" then pr - 2 else pr
  let burnout := if "Resilience" ∈ traits then burnout - 6 else burnout
  let funding := if "Charisma" ∈ traits ∧ action = "Fundraise" then funding + 5 else funding
  let feasibilityDelta :=
    if "Critical Thinking" ∈ traits then some (min 100 (feasibility * 1.1)) else none
  ⟨growth, ethics, burnout, pr, funding, feasibilityDelta⟩

/-- `computeDeltasLocally(nlp, action, gameState)` from the client offline
engine in `public/game.js`: same tables and score modifiers, but the
Integrity trait only halves a negative ethics delta (no `pr -= 2` on
Growth Hack) and there is no Critical Thinking rule. -/
def computeDeltasLocally (nlp : Scores) (action : String) (gameState : GameState) :
    DeltasOut :=
  let sentiment := nlp.sentiment
  let buzzword := nlp.buzzword
  let feasibility := nlp.feasibility
  let traits := gameState.traits
  let company := gameState.company
  let base := actionEffects action
  let growth := base.growth + (sentiment - 50) * 0.15
  let pr := base.pr + (sentiment - 50) * 0.2
  let ethics := base.ethics - (buzzword - 50) * 0.1
  let funding := base.funding + (feasibility - 20) * 0.08
  let burnout := base.burnout + (100 - feasibility) * 0.05
  let industryMods := getIndustryModifiers company.industry
  let techMods := getTechModifiers company.tech
  let growth := if growth > 0 then growth * (industryMods.growth * techMods.growth) else growth
  let ethics := if ethics < 0 then ethics * (industryMods.ethics_risk * techMods.ethics_risk) else ethics
  let pr := if pr > 0 then pr * (industryMods.pr * techMods.pr) else pr
  let funding := if funding > 0 then funding * (industryMods.funding * techMods.funding) else funding
  let pr := if "Ambition" ∈ traits ∧ (action = "PR" ∨ action = "Fundraise") then pr + 5 else pr
  let burnout := if "Ambition" ∈ traits then burnout + 1 else burnout
  let ethics := if "Integrity" ∈ traits ∧ ethics < 0 then ethics * 0.5 else ethics
  let burnout := if "Resilience" ∈ traits then burnout - 6 else burnout
  let funding := if "Charisma" ∈ traits ∧ action = "Fundraise" then funding + 5 else funding
  ⟨growth, ethics, burnout, pr, funding, none⟩

/-- `applyDeltas(deltas, gameState)` from `server/gameLogic.js`: copy
`gameState.meters`, then for each key of `deltas` (in insertion order) set
`newMeters[key] = Math.max(0, Math.min(100, newMeters[key] + deltas[key]))`.
The embedding takes the meters object the source copies out of the state. -/
def applyDeltas (deltas : Obj) (meters : Obj) : Obj :=
  deltas.foldl
    (fun newMeters kv =>
      newMeters.set kv.1 (jclampMeter (jadd (newMeters.get kv.1) (some kv.2))))
    meters

/-- `applyDeltasLocally(deltas, gameState)` from `public/game.js`:
character-for-character the same loop as the server `applyDeltas`. -/
def applyDeltasLocally (deltas : Obj) (meters : Obj) : Obj :=
  deltas.foldl
    (fun newMeters kv =>
      newMeters.set kv.1 (jclampMeter (jadd (newMeters.get kv.1) (some kv.2))))
    meters

/-- An ending, identified by its title; the prose `text` field is an opaque
flavour string and is elided from the embedding. -/
structure Ending where
  title : String
deriving DecidableEq

def collapseEnding : Ending := ⟨"Collapse"⟩
def bankruptcyEnding : Ending := ⟨"Bankruptcy"⟩
def ipoSuccessEnding : Ending := ⟨"IPO Success"⟩
def acquisitionEnding : Ending := ⟨"Acquisition"⟩
def pivotToWellnessEnding : Ending := ⟨"Pivot to Wellness"⟩
def infamyEnding : Ending := ⟨"Infamy"⟩
def stableMediocrityEnding : Ending := ⟨"Stable Mediocrity"⟩

/-- `checkEnding(meters, round)` from `server/gameLogic.js`: instant-fail
checks first, then the round gate, then the final endings in order. -/
def checkEnding (meters : Meters) (round : ℤ) : Option Ending :=
  if meters.burnout > 80 then some collapseEnding
  else if meters.funding < 0 then some bankruptcyEnding
  else if round < 26 then none
  else if meters.growth > 80 ∧ meters.ethics > 50 ∧ meters.burnout < 30 then
    some ipoSuccessEnding
  else if meters.funding > 80 ∧ meters.ethics < 40 then some acquisitionEnding
  else if meters.ethics > 80 ∧ meters.burnout < 40 ∧ meters.growth < 70 then
    some pivotToWellnessEnding
  else if meters.pr < 10 ∧ meters.ethics < 30 then some infamyEnding
  else some stableMediocrityEnding

/-- `checkEndingLocally(meters, round)` from `public/game.js`: the same
cascade with the same thresholds and the same ending titles. -/
def checkEndingLocally (meters : Meters) (round : ℤ) : Option Ending :=
  if meters.burnout > 80 then some collapseEnding
  else if meters.funding < 0 then some bankruptcyEnding
  else if round < 26 then none
  else if meters.growth > 80 ∧ meters.ethics > 50 ∧ meters.burnout < 30 then
    some ipoSuccessEnding
  else if meters.funding > 80 ∧ meters.ethics < 40 then some acquisitionEnding
  else if meters.ethics > 80 ∧ meters.burnout < 40 ∧ meters.growth < 70 then
    some pivotToWellnessEnding
  else if meters.pr < 10 ∧ meters.ethics < 30 then some infamyEnding
  else some stableMediocrityEnding

/-- `Math.round` on an exact rational: JS rounds half toward positive
infinity, `round(x) = floor(x + 0.5)` (all values rounded here are
non-negative, where the two conventions agree anyway). -/
def jround (q : ℚ) : ℤ := ⌊q + 1/2⌋

/-- Result of `heuristicScores` (and of `analyzeUpdate`): the integer score
triple plus the attribution tag. -/
structure HeurScores where
  sentiment : ℤ
  buzzword : ℤ
  feasibility : ℤ
  source : String
deriving DecidableEq

/-- `heuristicScores(text)` from `server/geminiService.js`. The regex layer
is abstracted: `len` is `text.length`, `buzzwordCount` the number of
case-insensitive matches of
`\b(AI|synergy|pivot|scale|hyper|growth|runway|NFT|blockchain)\b`, and
`hasNumbers` whether `\b\d+%?|\b\d+\b` matches. -/
def heuristicScores (len buzzwordCount : ℕ) (hasNumbers : Bool) : HeurScores :=
  let normalizedLength := min ((len : ℚ) / 280) 1
  let sentiment := jround (35 + normalizedLength * 40)
  let buzzword := min (20 + (buzzwordCount : ℚ) * 15) 85
  let feasibility :=
    max 30 (if hasNumbers then 70 - (buzzwordCount : ℚ) * 5
            else 55 - (buzzwordCount : ℚ) * 10)
  ⟨sentiment, jround buzzword, jround (min feasibility 95), "heuristic"⟩

/-- Result of `analyzeUpdateLocally`: the integer score triple (the offline
scorer attaches no `source` field). -/
structure LocalScores where
  sentiment : ℤ
  buzzword : ℤ
  feasibility : ℤ
deriving DecidableEq

/-- `analyzeUpdateLocally(text)` from `public/game.js`. Same abstraction of
the regex layer; note its buzzword list additionally contains `virality`,
its buzzword cap is 90 (not 85), and its feasibility arithmetic uses bases
72/58 with multiplier 6 (not 70/55 with 5/10). -/
def analyzeUpdateLocally (len buzzwordCount : ℕ) (hasNumbers : Bool) :
    LocalScores :=
  let normalizedLength := min ((len : ℚ) / 280) 1
  let sentiment := jround (35 + normalizedLength * 40)
  let buzzword := min (20 + (buzzwordCount : ℚ) * 15) 90
  let feasibilityBase := if hasNumbers then (72 : ℚ) else 58
  let feasibility := max 30 (min 95 (feasibilityBase - (buzzwordCount : ℚ) * 6))
  ⟨sentiment, jround buzzword, jround feasibility⟩

/-- Outcome of the primary (Gemini) scoring path of `analyzeUpdate`:
the model object may be null (`unavailable`), the generate/parse step may
throw (`failure`), or it may yield a parsed score triple. -/
inductive PrimaryOutcome where
  | unavailable : PrimaryOutcome
  | failure : PrimaryOutcome
  | success (sentiment buzzword feasibility : ℤ) : PrimaryOutcome

/-- `analyzeUpdate(text, action, gameState)` from `server/geminiService.js`,
with the network call abstracted into its outcome and the text into its
regex statistics. `allowFallback` is `shouldAllowFallback()` (true unless
the environment sets `GEMINI_ALLOW_FALLBACK` to the string `false`).
`Except.error ()` models the function throwing to its caller. -/
def analyzeUpdate (allowFallback : Bool) (primary : PrimaryOutcome)
    (len buzzwordCount : ℕ) (hasNumbers : Bool) : Except Unit HeurScores :=
  match primary with
  | .unavailable =>
      if !allowFallback then .error ()
      else .ok { heuristicScores len buzzwordCount hasNumbers with source := "heuristic" }
  | .failure =>
      if !allowFallback then .error ()
      else .ok { heuristicScores len buzzwordCount hasNumbers with source := "heuristic" }
  | .success s b f => .ok ⟨s, b, f, "gemini"⟩

/-- One entry of a `MILESTONE_DEFINITIONS` stages array. -/
structure StageInfo where
  label : String
  status : String
deriving DecidableEq

/-- One milestone definition: title plus the fixed 4-stage table. -/
structure MilestoneDef where
  title : String
  stages : List StageInfo

/-- `MILESTONE_DEFINITIONS` from `server/geminiService.js`, keyed by id. -/
def MILESTONE_DEFINITIONS (id : String) : Option MilestoneDef :=
  if id = "product" then some ⟨"Ship V1",
    [⟨"Concept", "Sketching the vision and chasing the first prototype"⟩,
     ⟨"Prototype", "Alpha version limping through early demos"⟩,
     ⟨"Launch", "Public launch spiking user curiosity"⟩,
     ⟨"Scale", "Version 2 shipping weekly with users sticking around"⟩]⟩
  else if id = "funding" then some ⟨"Secure Series A",
    [⟨"Door knocking", "Warm intros and cold emails dominate the calendar"⟩,
     ⟨"Term sheet whispers", "Partners circling as metrics improve"⟩,
     ⟨"Diligence gauntlet", "Data room open, tough questions flying in"⟩,
     ⟨"Money in the bank", "Wire hit, new board member ready to meddle"⟩]⟩
  else if id = "team" then some ⟨"Keep Team Together",
    [⟨"Hopeful", "Team buzzing on vision and caffeine"⟩,
     ⟨"Grinding", "Burnout creeping while deadlines loom"⟩,
     ⟨"Stabilizing", "Processes, rest, and clarity return"⟩,
     ⟨"Thriving", "Proud, sustainable, and celebrating the wins"⟩]⟩
  else none

/-- `MILESTONE_DEFINITIONS` from `public/game.js` (same ids, titles, stage
labels; shorter status strings). -/
def MILESTONE_DEFINITIONS_LOCAL (id : String) : Option MilestoneDef :=
  if id = "product" then some ⟨"Ship V1",
    [⟨"Concept", "Sketching the vision"⟩,
     ⟨"Prototype", "Alpha build limping through demos"⟩,
     ⟨"Launch", "Public launch riding a spike of signups"⟩,
     ⟨"Scale", "Feature velocity humming, users sticking around"⟩]⟩
  else if id = "funding" then some ⟨"Secure Series A",
    [⟨"Door knocking", "Warm intros and cold emails galore"⟩,
     ⟨"Term sheet whispers", "VCs nibbling on traction charts"⟩,
     ⟨"Diligence gauntlet", "Data room open, partner meeting scheduled"⟩,
     ⟨"Money in the bank", "Wire hit, runway reset, new board member incoming"⟩]⟩
  else if id = "team" then some ⟨"Keep Team Together",
    [⟨"Hopeful", "Everyone thinks this might actually work"⟩,
     ⟨"Grinding", "Late nights + code red weekends take a toll"⟩,
     ⟨"Stabilizing", "Process, boundaries, and better sleep regain trust"⟩,
     ⟨"Thriving", "Team humming, celebrating wins without burnout"⟩]⟩
  else none

/-- One milestone track as stored in the narrative state. JS stores `stage`
as a number; it is an integer in every reachable state. -/
structure Milestone where
  id : String
  title : String
  stage : ℤ
  status : String
  progressLabel : String

/-- The NPC mood indices. -/
structure Npc where
  vcMood : ℚ
  employeeMorale : ℚ

/-- The narrative state `{npc, milestones, sceneLog}`; scene-log entries are
opaque scene summaries. -/
structure Narrative where
  npc : Npc
  milestones : List Milestone
  sceneLog : List String

/-- `def.stages[i] || def.stages[def.stages.length - 1]`: an index outside
the array reads `undefined` and falls back to the last stage. (Every
definition has 4 stages, so the inner fallback default is unreachable.) -/
def stageAt (d : MilestoneDef) (i : ℤ) : StageInfo :=
  if h : 0 ≤ i ∧ i.toNat < d.stages.length then d.stages.get ⟨i.toNat, h.2⟩
  else (d.stages.getLast?).getD ⟨"", ""⟩

/-- The three-way `switch (ms.id)` of `updateNarrativeState` computing the
new stage from the new meters and the chosen action; identical in the
server and the offline copy. -/
def milestoneNewStage (id : String) (stage0 : ℤ) (meters : Meters)
    (action : String) : ℤ :=
  if id = "product" then
    let s1 := if stage0 < 1 ∧ (meters.growth > 45 ∨ action = "Build") then 1 else stage0
    let s2 := if s1 < 2 ∧ (meters.growth > 60 ∧ meters.pr > 20) then 2 else s1
    if s2 < 3 ∧ (meters.growth > 75 ∧ meters.funding > 60) then 3 else s2
  else if id = "funding" then
    let s1 := if stage0 < 1 ∧ (meters.funding > 55 ∨ action = "Fundraise") then 1 else stage0
    let s2 := if s1 < 2 ∧ (meters.funding > 70 ∧ meters.pr > 25) then 2 else s1
    if s2 < 3 ∧ (meters.funding > 85 ∧ meters.pr > 35) then 3 else s2
  else if id = "team" then
    let s1 := if stage0 < 1 ∧ (meters.burnout < 55 ∨ action = "Hire" ∨ action = "Refactor") then 1 else stage0
    let s2 := if s1 < 2 ∧ (meters.burnout < 40 ∧ meters.ethics > 55) then 2 else s1
    if s2 < 3 ∧ (meters.burnout < 32 ∧ meters.growth > 60) then 3 else s2
  else stage0

/-- A stage-increase event pushed onto `changes` (the `thresholdsMet`
meters echo of the server copy is elided as presentation data). -/
structure ChangeRec where
  id : String
  title : String
  stage : ℤ
  previousStage : ℤ
  status : String
  progressLabel : String

/-- The body of the `narrative.milestones.map(ms => ...)` of
`updateNarrativeState`, parameterized by the defining table (the server and
offline copies each close over their own `MILESTONE_DEFINITIONS`). Returns
the updated track and the change event, if the stage increased. -/
def stepMilestone (defs : String → Option MilestoneDef) (meters : Meters)
    (action : String) (ms : Milestone) : Milestone × Option ChangeRec :=
  match defs ms.id with
  | none => (ms, none)
  | some d =>
      let previousStage := ms.stage
      let newStage := milestoneNewStage ms.id previousStage meters action
      let stageInfo := stageAt d newStage
      let next : Milestone :=
        { ms with stage := newStage, status := stageInfo.status,
                  progressLabel := stageInfo.label }
      (next,
       if newStage > previousStage then
         some ⟨ms.id, ms.title, newStage, previousStage,
               stageInfo.status, stageInfo.label⟩
       else none)

/-- `getDefaultNarrative()` from `server/geminiService.js`: the three tracks
at stage 0 in table order, neutral moods, empty scene log. -/
def getDefaultNarrative : Narrative :=
  { npc := ⟨0, 0⟩
    milestones :=
      ["product", "funding", "team"].filterMap fun id =>
        (MILESTONE_DEFINITIONS id).map fun d =>
          { id := id, title := d.title, stage := 0,
            status := (stageAt d 0).status,
            progressLabel := (stageAt d 0).label }
    sceneLog := [] }

/-- `createDefaultNarrative()` from `public/game.js` (same shape, built from
the offline definitions table). -/
def createDefaultNarrative : Narrative :=
  { npc := ⟨0, 0⟩
    milestones :=
      ["product", "funding", "team"].filterMap fun id =>
        (MILESTONE_DEFINITIONS_LOCAL id).map fun d =>
          { id := id, title := d.title, stage := 0,
            status := (stageAt d 0).status,
            progressLabel := (stageAt d 0).label }
    sceneLog := [] }

/-- `normalizeNarrative(narrative)` from `server/geminiService.js`: null
falls back to the default narrative; a non-empty milestone list is remapped
against the definitions table (preserving each track's stage, substituting
the table title and filling empty status/label texts); an empty list is
replaced by the default tracks; the scene log keeps its last 12 entries. -/
def normalizeNarrative (narrative : Option Narrative) : Narrative :=
  match narrative with
  | none => getDefaultNarrative
  | some base =>
      { npc := base.npc
        milestones :=
          match base.milestones with
          | [] => getDefaultNarrative.milestones
          | _ :: _ =>
            base.milestones.map fun ms =>
              match MILESTONE_DEFINITIONS ms.id with
              | none => ms
              | some d =>
                  let stage := ms.stage
                  let info := stageAt d stage
                  { id := ms.id, title := d.title, stage := stage,
                    status := if ms.status = "" then info.status else ms.status,
                    progressLabel :=
                      if ms.progressLabel = "" then info.label else ms.progressLabel }
        sceneLog := base.sceneLog.drop (base.sceneLog.length - 12) }

/-- `updateNarrativeState(prevNarrative, deltas, meters, action, updateText,
nlp)` from `server/geminiService.js`: normalize, update the two mood
indices, advance each milestone track, collect stage-increase events. -/
def updateNarrativeState (prevNarrative : Option Narrative) (deltas : DeltasOut)
    (meters : Meters) (action : String) (nlp : Scores) :
    Narrative × List ChangeRec :=
  let narrative := normalizeNarrative prevNarrative
  let sentimentShift := (nlp.sentiment - 50) * 0.05
  let vcMood :=
    clampValue (narrative.npc.vcMood + deltas.funding * 0.25 + deltas.pr * 0.15
      + sentimentShift) (-10) 10
  let employeeMorale :=
    clampValue (narrative.npc.employeeMorale - deltas.burnout * 0.3
      + deltas.ethics * 0.12 + sentimentShift) (-10) 10
  let stepped := narrative.milestones.map (stepMilestone MILESTONE_DEFINITIONS meters action)
  ({ npc := ⟨vcMood, employeeMorale⟩
     milestones := stepped.map Prod.fst
     sceneLog := narrative.sceneLog },
   stepped.filterMap Prod.snd)

/-- `updateNarrativeStateLocal(prevNarrative, deltas, meters, action, text,
nlp)` from `public/game.js`: deep-copies the previous narrative (or builds
the default), updates the mood indices with the same coefficients, advances
each track with the same switch against the offline definitions table. -/
def updateNarrativeStateLocal (prevNarrative : Option Narrative)
    (deltas : DeltasOut) (meters : Meters) (action : String) (nlp : Scores) :
    Narrative × List ChangeRec :=
  let narrative := prevNarrative.getD createDefaultNarrative
  let sentimentShift := (nlp.sentiment - 50) * 0.05
  let vcMood :=
    clampValue (narrative.npc.vcMood + deltas.funding * 0.25 + deltas.pr * 0.15
      + sentimentShift) (-10) 10
  let employeeMorale :=
    clampValue (narrative.npc.employeeMorale - deltas.burnout * 0.3
      + deltas.ethics * 0.12 + sentimentShift) (-10) 10
  let stepped := narrative.milestones.map (stepMilestone MILESTONE_DEFINITIONS_LOCAL meters action)
  ({ npc := ⟨vcMood, employeeMorale⟩
     milestones := stepped.map Prod.fst
     sceneLog := narrative.sceneLog },
   stepped.filterMap Prod.snd)

/-- Reads the five meter channels back out of a meters object, succeeding
when all five are present and numeric (the destructuring
`const { growth, ethics, burnout, funding, pr } = meters` of `checkEnding`,
restricted to the well-formed case). -/
def metersFromObj? (o : Obj) : Option Meters :=
  match o.get "growth", o.get "ethics", o.get "burnout",
        o.get "pr", o.get "funding" with
  | some (some g), some (some e), some (some b), some (some p), some (some f) =>
      some ⟨g, e, b, p, f⟩
  | _, _, _, _, _ => none

/-! ### Helper lemmas -/

lemma jround_intCast (n : ℤ) : jround (n : ℚ) = n := by
  unfold jround
  rw [Int.floor_int_add]
  norm_num

lemma clampValue_nonneg (q : ℚ) : 0 ≤ clampValue q 0 100 := le_max_left _ _

lemma clampValue_le_100 (q : ℚ) : clampValue q 0 100 ≤ 100 :=
  max_le (by norm_num) (min_le_left _ _)

/-- Evaluating the meter-applier loop on well-formed inputs: the result
object always yields exactly the five clamped channels. -/
lemma applyDeltas_metersFromObj (d : DeltasOut) (m : Meters) :
    metersFromObj? (applyDeltas d.toObj m.toObj) =
      some ⟨clampValue (m.growth + d.growth) 0 100,
            clampValue (m.ethics + d.ethics) 0 100,
            clampValue (m.burnout + d.burnout) 0 100,
            clampValue (m.pr + d.pr) 0 100,
            clampValue (m.funding + d.funding) 0 100⟩ := by
  obtain ⟨dg, de, db, dp, df, dfz⟩ := d
  obtain ⟨mg, me, mb, mp, mf⟩ := m
  cases dfz <;>
    simp [applyDeltas, DeltasOut.toObj, Meters.toObj, Obj.get, Obj.set,
      jadd, jclampMeter, metersFromObj?]

/-- When `computeDeltas` assigned the sixth `feasibility` delta, the
meter-applier loop writes `undefined + number`, i.e. NaN, into the result. -/
lemma applyDeltas_feasibility_nan (d : DeltasOut) (q : ℚ)
    (hd : d.feasibility = some q) (m : Meters) :
    (applyDeltas d.toObj m.toObj).get "feasibility" = some none := by
  obtain ⟨dg, de, db, dp, df, dfz⟩ := d
  obtain ⟨mg, me, mb, mp, mf⟩ := m
  cases dfz with
  | none => simp at hd
  | some q' =>
      simp [applyDeltas, DeltasOut.toObj, Meters.toObj, Obj.get, Obj.set,
        jadd, jclampMeter]

/-- The staging switch can only raise a stage. -/
lemma milestoneNewStage_ge (id : String) (s : ℤ) (meters : Meters)
    (action : String) : s ≤ milestoneNewStage id s meters action := by
  simp only [milestoneNewStage]
  split_ifs <;> omega

/-- One milestone map step never lowers the stage. -/
lemma stepMilestone_stage_ge (defs : String → Option MilestoneDef)
    (meters : Meters) (action : String) (ms : Milestone) :
    ms.stage ≤ (stepMilestone defs meters action ms).1.stage := by
  unfold stepMilestone
  cases defs ms.id with
  | none => simp
  | some d => simpa using milestoneNewStage_ge ms.id ms.stage meters action

/-- Server-side narrative normalization preserves each track's stage. -/
lemma normalizeNarrative_stage (base : Narrative) (h : base.milestones ≠ []) :
    List.Forall₂ (fun a b => a.stage = b.stage) base.milestones
      (normalizeNarrative (some base)).milestones := by
  unfold normalizeNarrative
  cases hms : base.milestones with
  | nil => exact absurd hms h
  | cons x xs =>
      rw [← hms]
      simp only [hms]
      rw [← hms]
      rw [List.forall₂_map_right_iff]
      rw [List.forall₂_same]
      intro ms _
      cases MILESTONE_DEFINITIONS ms.id <;> simp

/-! ### Claim theorems -/

/-- C1 (counterexample): the claim that the offline engine reproduces the
same math as the server pipeline on every input is false: with the
Integrity trait and the Growth Hack action, the server `computeDeltas`
applies an extra `pr -= 2` that `computeDeltasLocally` lacks (pr delta
-3 versus -1 on this input). -/
theorem offline_engine_divergence :
    computeDeltasLocally ⟨70, 80, 40⟩ "Growth Hack"
        ⟨⟨35, 60, 25, 10, 50⟩, ["Integrity"], ⟨"Software", "Software"⟩⟩ ≠
      computeDeltas ⟨70, 80, 40⟩ "Growth Hack"
        ⟨⟨35, 60, 25, 10, 50⟩, ["Integrity"], ⟨"Software", "Software"⟩⟩ := by
  have h1 : computeDeltasLocally ⟨70, 80, 40⟩ "Growth Hack"
        ⟨⟨35, 60, 25, 10, 50⟩, ["Integrity"], ⟨"Software", "Software"⟩⟩ =
      ⟨18, -5.5, 13, -1, 6.6, none⟩ := by
    simp [computeDeltasLocally, actionEffects, getIndustryModifiers, getTechModifiers]
    norm_num
  have h2 : computeDeltas ⟨70, 80, 40⟩ "Growth Hack"
        ⟨⟨35, 60, 25, 10, 50⟩, ["Integrity"], ⟨"Software", "Software"⟩⟩ =
      ⟨18, -5.5, 13, -3, 6.6, none⟩ := by
    simp [computeDeltas, actionEffects, getIndustryModifiers, getTechModifiers]
    norm_num
  rw [h1, h2]
  simp [DeltasOut.mk.injEq]

/-- C1 (amended): the offline meter applier and ending evaluator agree with
the server versions on every input; the offline delta engine agrees with the
server one whenever the traits exclude Critical Thinking and the
Integrity-with-Growth-Hack combination; and the offline scorer agrees with
the server heuristic on the sentiment component (its buzzword cap and
feasibility arithmetic differ). -/
theorem offline_engine_agreement (nlp : Scores) (action : String)
    (gs : GameState) (deltas meters : Obj) (m : Meters) (r : ℤ)
    (len c : ℕ) (hn : Bool)
    (h1 : "Critical Thinking" ∉ gs.traits)
    (h2 : ¬("Integrity" ∈ gs.traits ∧ action = "Growth Hack")) :
    applyDeltasLocally deltas meters = applyDeltas deltas meters ∧
    checkEndingLocally m r = checkEnding m r ∧
    computeDeltasLocally nlp action gs = computeDeltas nlp action gs ∧
    (analyzeUpdateLocally len c hn).sentiment =
      (heuristicScores len c hn).sentiment := by
  refine ⟨rfl, rfl, ?_, rfl⟩
  simp only [computeDeltas, computeDeltasLocally]
  simp [h1, h2]

/-- C1 (witness for the amended claim). -/
theorem offline_engine_agreement_witness :
    applyDeltasLocally [("growth", some 5)] [("growth", some 35)] =
      applyDeltas [("growth", some 5)] [("growth", some 35)] ∧
    checkEndingLocally ⟨35, 60, 25, 10, 50⟩ 1 = checkEnding ⟨35, 60, 25, 10, 50⟩ 1 ∧
    computeDeltasLocally ⟨70, 80, 40⟩ "Build"
        ⟨⟨35, 60, 25, 10, 50⟩, ["Ambition", "Charisma"], ⟨"Software", "Software"⟩⟩ =
      computeDeltas ⟨70, 80, 40⟩ "Build"
        ⟨⟨35, 60, 25, 10, 50⟩, ["Ambition", "Charisma"], ⟨"Software", "Software"⟩⟩ ∧
    (analyzeUpdateLocally 12 0 false).sentiment =
      (heuristicScores 12 0 false).sentiment :=
  offline_engine_agreement ⟨70, 80, 40⟩ "Build"
    ⟨⟨35, 60, 25, 10, 50⟩, ["Ambition", "Charisma"], ⟨"Software", "Software"⟩⟩
    [("growth", some 5)] [("growth", some 35)] ⟨35, 60, 25, 10, 50⟩ 1 12 0 false
    (by decide) (by decide)

/-- C2 (counterexample): the claim that `analyzeUpdate` always returns a
triple instead of propagating an error is false when the fallback is
disabled (`GEMINI_ALLOW_FALLBACK` set to the string `false`): with the
model unavailable it throws to its caller. -/
theorem analyzeUpdate_throws_when_fallback_disabled :
    analyzeUpdate false .unavailable 0 0 false = .error () := rfl

/-- C2 (amended): provided the fallback is allowed (the default), a call
whose primary Gemini path is unavailable or throws still returns the
heuristic triple computed from the text, tagged with the `heuristic`
source, instead of propagating the error. -/
theorem analyzeUpdate_fallback_total (len c : ℕ) (hn : Bool) :
    analyzeUpdate true .unavailable len c hn =
      .ok { heuristicScores len c hn with source := "heuristic" } ∧
    analyzeUpdate true .failure len c hn =
      .ok { heuristicScores len c hn with source := "heuristic" } :=
  ⟨rfl, rfl⟩

/-- C3: on a five-channel deltas map, `applyDeltas` produces exactly the
per-channel clamp `newMeters[k] = clamp(meters[k] + deltas[k], 0, 100)`,
and every output channel lies in [0, 100] whatever the deltas are. -/
theorem applyDeltas_clamps_channels (m : Meters) (d : DeltasOut)
    (_h : d.feasibility = none) :
    ∃ m' : Meters,
      metersFromObj? (applyDeltas d.toObj m.toObj) = some m' ∧
      m'.growth = clampValue (m.growth + d.growth) 0 100 ∧
      m'.ethics = clampValue (m.ethics + d.ethics) 0 100 ∧
      m'.burnout = clampValue (m.burnout + d.burnout) 0 100 ∧
      m'.pr = clampValue (m.pr + d.pr) 0 100 ∧
      m'.funding = clampValue (m.funding + d.funding) 0 100 ∧
      (0 ≤ m'.growth ∧ m'.growth ≤ 100) ∧ (0 ≤ m'.ethics ∧ m'.ethics ≤ 100) ∧
      (0 ≤ m'.burnout ∧ m'.burnout ≤ 100) ∧ (0 ≤ m'.pr ∧ m'.pr ≤ 100) ∧
      (0 ≤ m'.funding ∧ m'.funding ≤ 100) :=
  ⟨_, applyDeltas_metersFromObj d m, rfl, rfl, rfl, rfl, rfl,
    ⟨clampValue_nonneg _, clampValue_le_100 _⟩,
    ⟨clampValue_nonneg _, clampValue_le_100 _⟩,
    ⟨clampValue_nonneg _, clampValue_le_100 _⟩,
    ⟨clampValue_nonneg _, clampValue_le_100 _⟩,
    ⟨clampValue_nonneg _, clampValue_le_100 _⟩⟩

/-- C3 (witness): deltas driving the meters far outside [0, 100]. -/
theorem applyDeltas_clamps_channels_witness :
    ∃ m' : Meters,
      metersFromObj? (applyDeltas
        (DeltasOut.toObj ⟨500, -500, 0, 0, -500, none⟩)
        (Meters.toObj ⟨35, 60, 25, 10, 50⟩)) = some m' ∧
      m'.growth = clampValue (35 + 500) 0 100 ∧
      m'.ethics = clampValue (60 + -500) 0 100 ∧
      m'.burnout = clampValue (25 + 0) 0 100 ∧
      m'.pr = clampValue (10 + 0) 0 100 ∧
      m'.funding = clampValue (50 + -500) 0 100 ∧
      (0 ≤ m'.growth ∧ m'.growth ≤ 100) ∧ (0 ≤ m'.ethics ∧ m'.ethics ≤ 100) ∧
      (0 ≤ m'.burnout ∧ m'.burnout ≤ 100) ∧ (0 ≤ m'.pr ∧ m'.pr ≤ 100) ∧
      (0 ≤ m'.funding ∧ m'.funding ≤ 100) :=
  applyDeltas_clamps_channels ⟨35, 60, 25, 10, 50⟩ ⟨500, -500, 0, 0, -500, none⟩ rfl

/-- C4: the burnout check is first in the cascade, so `burnout > 80` yields
the Collapse ending for every other meter value and every round. -/
theorem checkEnding_collapse_priority (m : Meters) (r : ℤ)
    (h : m.burnout > 80) : checkEnding m r = some collapseEnding := by
  simp [checkEnding, h]

/-- C4 (witness): burnout 85 and funding -5 at round 1 end in Collapse, not
Bankruptcy and not none. -/
theorem checkEnding_collapse_priority_witness :
    checkEnding ⟨35, 60, 85, 10, -5⟩ 1 = some collapseEnding :=
  checkEnding_collapse_priority ⟨35, 60, 85, 10, -5⟩ 1 (by norm_num)

/-- C5: before round 26, with neither instant-fail condition met
(burnout ≤ 80, funding ≥ 0), `checkEnding` returns none — the non-instant
endings never fire early even if their thresholds hold. -/
theorem checkEnding_round_gate (m : Meters) (r : ℤ) (hr : r < 26)
    (hb : m.burnout ≤ 80) (hf : 0 ≤ m.funding) : checkEnding m r = none := by
  unfold checkEnding
  rw [if_neg (not_lt.2 hb), if_neg (not_lt.2 hf), if_pos hr]

/-- C5 (witness): round 10 with meters satisfying the IPO Success
thresholds (growth 90 > 80, ethics 60 > 50, burnout 25 < 30) still
returns none. -/
theorem checkEnding_round_gate_witness :
    checkEnding ⟨90, 60, 25, 50, 85⟩ 10 = none :=
  checkEnding_round_gate ⟨90, 60, 25, 50, 85⟩ 10 (by norm_num) (by norm_num)
    (by norm_num)

/-- C6: one narrative update never lowers any milestone track's stage, in
the server `updateNarrativeState` and in the offline
`updateNarrativeStateLocal`; iterating over rounds, stages are therefore
non-decreasing over every sequence of rounds. -/
theorem milestone_stages_monotone (prev : Narrative) (h : prev.milestones ≠ [])
    (deltas : DeltasOut) (meters : Meters) (action : String) (nlp : Scores) :
    List.Forall₂ (fun a b => a.stage ≤ b.stage) prev.milestones
      (updateNarrativeState (some prev) deltas meters action nlp).1.milestones ∧
    List.Forall₂ (fun a b => a.stage ≤ b.stage) prev.milestones
      (updateNarrativeStateLocal (some prev) deltas meters action nlp).1.milestones := by
  constructor
  · have hn := normalizeNarrative_stage prev h
    simp only [updateNarrativeState, List.map_map, List.forall₂_map_right_iff]
    refine hn.imp ?_
    intro a b hab
    simp only [Function.comp]
    rw [hab]
    exact stepMilestone_stage_ge _ _ _ b
  · simp only [updateNarrativeStateLocal, Option.getD_some, List.map_map,
      List.forall₂_map_right_iff]
    refine List.forall₂_same.2 ?_
    intro ms _
    simp only [Function.comp]
    exact stepMilestone_stage_ge _ _ _ ms

/-- C6 (witness). -/
theorem milestone_stages_monotone_witness :
    List.Forall₂ (fun a b => a.stage ≤ b.stage)
      ([⟨"product", "Ship V1", 1, "s", "l"⟩] : List Milestone)
      (updateNarrativeState
        (some ⟨⟨0, 0⟩, [⟨"product", "Ship V1", 1, "s", "l"⟩], []⟩)
        ⟨0, 0, 0, 0, 0, none⟩ ⟨35, 60, 25, 10, 50⟩ "Build" ⟨50, 50, 50⟩).1.milestones ∧
    List.Forall₂ (fun a b => a.stage ≤ b.stage)
      ([⟨"product", "Ship V1", 1, "s", "l"⟩] : List Milestone)
      (updateNarrativeStateLocal
        (some ⟨⟨0, 0⟩, [⟨"product", "Ship V1", 1, "s", "l"⟩], []⟩)
        ⟨0, 0, 0, 0, 0, none⟩ ⟨35, 60, 25, 10, 50⟩ "Build" ⟨50, 50, 50⟩).1.milestones :=
  milestone_stages_monotone ⟨⟨0, 0⟩, [⟨"product", "Ship V1", 1, "s", "l"⟩], []⟩
    (by simp) ⟨0, 0, 0, 0, 0, none⟩ ⟨35, 60, 25, 10, 50⟩ "Build" ⟨50, 50, 50⟩

/-- C7: the heuristic fallback scorer computes exactly the documented
formulas — `sentiment = round(35 + 40*min(len/280, 1))`,
`buzzword = min(20 + 15*buzzwordCount, 85)`,
`feasibility = clamp(hasNumbers ? 70 - 5*buzzwordCount
: 55 - 10*buzzwordCount, 30, 95)` — and on empty text (length 0, no
matches, no numerals) yields sentiment 35, buzzword 20, feasibility 55. -/
theorem heuristicScores_formula (len c : ℕ) (hn : Bool) :
    heuristicScores len c hn =
      { sentiment := jround (35 + 40 * min ((len : ℚ) / 280) 1),
        buzzword := min (20 + 15 * (c : ℤ)) 85,
        feasibility :=
          max 30 (min 95 (if hn then 70 - 5 * (c : ℤ) else 55 - 10 * (c : ℤ))),
        source := "heuristic" } ∧
    heuristicScores 0 0 false = ⟨35, 20, 55, "heuristic"⟩ := by
  constructor
  · simp only [heuristicScores, HeurScores.mk.injEq]
    refine ⟨by ring_nf, ?_, ?_, trivial⟩
    · rw [show (20 + (c : ℚ) * 15) = ((20 + 15 * (c : ℤ) : ℤ) : ℚ) by push_cast; ring,
        show (85 : ℚ) = ((85 : ℤ) : ℚ) by norm_num, ← Int.cast_min, jround_intCast]
    · cases hn
      · rw [if_neg (by simp), if_neg (by simp),
          show (55 - (c : ℚ) * 10) = ((55 - 10 * (c : ℤ) : ℤ) : ℚ) by push_cast; ring,
          show (30 : ℚ) = ((30 : ℤ) : ℚ) by norm_num,
          show (95 : ℚ) = ((95 : ℤ) : ℚ) by norm_num,
          ← Int.cast_max, ← Int.cast_min, jround_intCast]
        omega
      · rw [if_pos rfl, if_pos rfl,
          show (70 - (c : ℚ) * 5) = ((70 - 5 * (c : ℤ) : ℤ) : ℚ) by push_cast; ring,
          show (30 : ℚ) = ((30 : ℤ) : ℚ) by norm_num,
          show (95 : ℚ) = ((95 : ℤ) : ℚ) by norm_num,
          ← Int.cast_max, ← Int.cast_min, jround_intCast]
        omega
  · simp [heuristicScores, jround, min_def, max_def]
    norm_num

/-- C8: on action Growth Hack with scores (70, 80, 40), no traits and the
all-1.0 Software/Software multipliers, `computeDeltas` returns exactly
growth 18, ethics -11, burnout 13, pr -1, funding 6.6. -/
theorem computeDeltas_growthHack_example :
    computeDeltas ⟨70, 80, 40⟩ "Growth Hack"
        ⟨⟨35, 60, 25, 10, 50⟩, [], ⟨"Software", "Software"⟩⟩ =
      ⟨18, -11, 13, -1, 6.6, none⟩ := by
  simp [computeDeltas, actionEffects, getIndustryModifiers, getTechModifiers]
  norm_num

/-- C9: with the Critical Thinking trait, `computeDeltas` emits the sixth
key `feasibility = min(100, feasibility*1.1)`, and `applyDeltas` then adds
it to a missing meter channel, producing a NaN `feasibility` entry — so the
result is not a well-formed five-channel meter set. -/
theorem criticalThinking_sixth_key (nlp : Scores) (action : String)
    (gs : GameState) (h : "Critical Thinking" ∈ gs.traits) :
    (computeDeltas nlp action gs).feasibility =
      some (min 100 (nlp.feasibility * 1.1)) ∧
    (applyDeltas (computeDeltas nlp action gs).toObj gs.meters.toObj).get
        "feasibility" = some none := by
  have hf : (computeDeltas nlp action gs).feasibility =
      some (min 100 (nlp.feasibility * 1.1)) := by
    simp [computeDeltas, h]
  exact ⟨hf, applyDeltas_feasibility_nan _ _ hf gs.meters⟩

/-- C9 (witness). -/
theorem criticalThinking_sixth_key_witness :
    (computeDeltas ⟨70, 80, 40⟩ "Build"
        ⟨⟨35, 60, 25, 10, 50⟩, ["Critical Thinking", "Ambition"],
          ⟨"Software", "Software"⟩⟩).feasibility =
      some (min 100 (40 * 1.1)) ∧
    (applyDeltas
        (computeDeltas ⟨70, 80, 40⟩ "Build"
          ⟨⟨35, 60, 25, 10, 50⟩, ["Critical Thinking", "Ambition"],
            ⟨"Software", "Software"⟩⟩).toObj
        (Meters.toObj ⟨35, 60, 25, 10, 50⟩)).get "feasibility" = some none :=
  criticalThinking_sixth_key ⟨70, 80, 40⟩ "Build"
    ⟨⟨35, 60, 25, 10, 50⟩, ["Critical Thinking", "Ambition"],
      ⟨"Software", "Software"⟩⟩ (by decide)

/-- C10: every meters map produced by `applyDeltas` has funding ≥ 0, so the
ending evaluator applied to it can never take the funding < 0 branch and
never returns Bankruptcy. -/
theorem bankruptcy_unreachable (d : DeltasOut) (m : Meters) (r : ℤ)
    (m' : Meters)
    (h : metersFromObj? (applyDeltas d.toObj m.toObj) = some m') :
    0 ≤ m'.funding ∧ checkEnding m' r ≠ some bankruptcyEnding := by
  rw [applyDeltas_metersFromObj] at h
  injection h with h
  subst h
  refine ⟨clampValue_nonneg _, ?_⟩
  have hf : (0 : ℚ) ≤ clampValue (m.funding + d.funding) 0 100 :=
    clampValue_nonneg _
  simp only [checkEnding]
  split_ifs with h1 h2 h3 h4 h5 h6 h7 <;>
    simp_all [collapseEnding, bankruptcyEnding, ipoSuccessEnding,
      acquisitionEnding, pivotToWellnessEnding, infamyEnding,
      stableMediocrityEnding, Ending.mk.injEq]
  linarith

/-- C10 (witness): a deltas map driving funding far negative still lands at
funding 0 and a non-Bankruptcy verdict. -/
theorem bankruptcy_unreachable_witness :
    0 ≤ (Meters.mk 35 60 25 10 0).funding ∧
    checkEnding ⟨35, 60, 25, 10, 0⟩ 5 ≠ some bankruptcyEnding := by
  have h0 : metersFromObj? (applyDeltas
      (DeltasOut.toObj ⟨0, 0, 0, 0, -500, none⟩)
      (Meters.toObj ⟨35, 60, 25, 10, 50⟩)) = some ⟨35, 60, 25, 10, 0⟩ := by
    rw [applyDeltas_metersFromObj]
    norm_num [clampValue, Meters.mk.injEq, min_def, max_def]
  exact bankruptcy_unreachable ⟨0, 0, 0, 0, -500, none⟩ ⟨35, 60, 25, 10, 50⟩ 5
    ⟨35, 60, 25, 10, 0⟩ h0

end FounderGame
